import Mathlib

/-!
Verification of the core of `gdrive_eraser.py` (single-file CLI tool to
find and delete large Google Drive files) against its natural-language
specification.

The embedding models the four core pieces of the source:

* `retry_api_call`   — the retry-with-exponential-backoff wrapper;
* `get_folder_path`  — recursive ancestor-path resolution with memoization;
* `search_files`     — validated, paginated, post-filtered search;
* `delete_files`     — batch trash/permanent-delete with per-item accounting.

A point that matters throughout: in the Python source, the callables that
are wrapped by `retry_api_call` at the `search_files` and `delete_files`
call sites are `service.files().list` / `.update` / `.delete` — the
googleapiclient request *builders*.  Calling such a builder only
constructs an `HttpRequest` object; the network round trip happens only
when `.execute()` is called on that object.  Only `get_folder_path` ever
calls `.execute()` (and it does so outside the retry wrapper).  The
embedding models this two-phase protocol faithfully: requests are values
of type `DriveRequest`, and the remote behaviour (`DriveService`) is
consulted exactly where the source calls `.execute()`.
-/

/-- Python exceptions distinguished by the source: `HttpError` carries a
remote status code (`e.resp.status`); `ValueError` is raised by the input
validators; `AttributeError` arises from attribute access on an object
lacking the attribute; `exc` stands for any other exception.  The `msg`
field models `str(e)`. -/
inductive PyError where
  | httpError (status : Nat) (msg : String)
  | valueError (msg : String)
  | attributeError (msg : String)
  | exc (msg : String)
deriving DecidableEq

/-- `str(e)` for an exception value. -/
def PyError.message : PyError → String
  | .httpError _ m => m
  | .valueError m => m
  | .attributeError m => m
  | .exc m => m

/-- Whether the first char list is a prefix of the second (structural
helper for the string predicates below; the core `String` routines use
well-founded position loops, so the embedding works on `.data`). -/
def charsPrefix : List Char → List Char → Bool
  | [], _ => true
  | _ :: _, [] => false
  | a :: as, b :: bs => (a == b) && charsPrefix as bs

/-- Whether the first char list occurs contiguously in the second
(Python's `in` on strings). -/
def charsInfix : List Char → List Char → Bool
  | needle, [] => needle.isEmpty
  | needle, c :: rest => charsPrefix needle (c :: rest) || charsInfix needle rest

/-- Python `str.lower()` (ASCII case folding, which covers every string
the source compares). -/
def pyLower (s : String) : String := String.mk (s.data.map Char.toLower)

/-- Python `str.endswith(suffix)`. -/
def pyEndsWith (s suffix : String) : Bool :=
  charsPrefix suffix.data.reverse s.data.reverse

/-- Python `str.strip()` (ASCII whitespace). -/
def pyTrim (s : String) : String :=
  String.mk (((s.data.dropWhile Char.isWhitespace).reverse.dropWhile
    Char.isWhitespace).reverse)

/-- The status codes treated as transient in `retry_api_call`
(`e.resp.status in [429, 500, 502, 503, 504]`). -/
def retryableStatuses : List Nat := [429, 500, 502, 503, 504]

/-- Classification used by `retry_api_call`: an `HttpError` is retried
only on the listed statuses; any other exception is retried only when
`"timeout" in str(e).lower()`. -/
def retryable : PyError → Bool
  | .httpError st _ => retryableStatuses.contains st
  | e => charsInfix ( "timeout" : String).data (pyLower (PyError.message e)).data

/-- The `for attempt in range(max_retries)` loop of `retry_api_call`.
`remaining` is the number of loop iterations left (`max_retries -
attempt`), which makes the recursion structural; the loop-exit result
`none` models the `return None` that follows the loop (reachable only
when `max_retries = 0`).  The second component is the list of sleep
durations (`backoff_factor * (2 ** attempt)`) performed, in order. -/
def retryLoop {α : Type} (op : Nat → Except PyError α) (max_retries : Nat) (backoff : ℚ) :
    Nat → Nat → Option (Except PyError α) × List ℚ
  | _attempt, 0 => (none, [])
  | attempt, remaining + 1 =>
    match op attempt with
    | Except.ok v => (some (Except.ok v), [])
    | Except.error e =>
      if retryable e && decide (attempt < max_retries - 1) then
        let r := retryLoop op max_retries backoff (attempt + 1) remaining
        (r.1, backoff * 2 ^ attempt :: r.2)
      else
        (some (Except.error e), [])

/-- `retry_api_call(func, *args, max_retries=3, backoff_factor=1.0)`:
runs `op` up to `max_retries` times; `some (Except.ok v)` models a normal
return, `some (Except.error e)` models the call raising `e`, and `none`
models the post-loop `return None`.  The list collects the backoff
sleeps performed. -/
def retry_api_call {α : Type} (op : Nat → Except PyError α) (max_retries : Nat)
    (backoff : ℚ) : Option (Except PyError α) × List ℚ :=
  retryLoop op max_retries backoff 0 max_retries

/-- A file-metadata dict as consumed by the source (`f.get('id')`,
`f.get('name')`, `f.get('size')`, `f.get('parents', [])`); `none` models a
missing key.  Drive reports `size` as a decimal string. -/
structure FileRecord where
  id : Option String
  name : Option String
  size : Option String
  parents : List String
deriving DecidableEq

/-- Python truthiness of `d.get(key)` for a string-valued key: false when
the key is missing or maps to the empty string. -/
def optTruthy : Option String → Bool
  | none => false
  | some s => !(s == "")

/-- Metadata returned by `service.files().get(fileId=..,
fields='id,name,parents').execute()`: the source reads
`file_metadata.get('name', 'Unknown')` and `file_metadata.get('parents', [])`. -/
structure NodeMeta where
  name : Option String
  parents : List String
deriving DecidableEq

/-- One page of `service.files().list(...).execute()`:
`response.get('files', [])` and `response.get('nextPageToken', None)`. -/
structure ListResponse where
  files : List FileRecord
  nextPageToken : Option String
deriving DecidableEq

/-- The variable part of the search query built by `search_files`.  The
fixed clauses (`trashed=false`, not-a-folder, owned by me) are always
present; `nameContainsExt = some e` models the extra clause
`name contains '.e'`. -/
structure SearchQuery where
  nameContainsExt : Option String
deriving DecidableEq

/-- A googleapiclient `HttpRequest`, as returned by the request builders
`service.files().get/list/update/delete(...)`.  Building such a request
performs no I/O; the remote round trip happens only when `.execute()` is
called on it. -/
inductive DriveRequest where
  | filesGet (fileId : String)
  | filesList (q : SearchQuery) (pageToken : Option String)
  | filesUpdateTrashed (fileId : String)
  | filesDelete (fileId : String)
deriving DecidableEq

/-- The behaviour of the remote account behind `.execute()`: what each
kind of executed request returns (deterministic within one run).  An
`Except.error e` models `.execute()` raising `e`. -/
structure DriveService where
  getMeta : String → Except PyError NodeMeta
  listPage : SearchQuery → Option String → Except PyError ListResponse
  updateTrashed : String → Except PyError Unit
  deletePermanently : String → Except PyError Unit

/-- `validate_extension`: strips leading dots, then requires the string
(with `_` and `-` removed) to be nonempty and alphanumeric, and the
stripped extension to be at most 10 characters.  `Except.error` models a
raised `ValueError`.  (Python `str.isalnum` is unicode-aware; the claims
only exercise ASCII, which `Char.isAlphanum` covers.) -/
def validate_extension (extension : String) : Except PyError String :=
  if extension == "" then Except.ok extension
  else
    let ext := String.mk (extension.data.dropWhile (fun c => c == '.'))
    let stripped := ext.data.filter (fun c => !(c == '_') && !(c == '-'))
    if stripped.isEmpty || !(stripped.all Char.isAlphanum) then
      Except.error (PyError.valueError ( "Invalid extension" ))
    else if ext.length > 10 then
      Except.error (PyError.valueError ( "Extension too long" ))
    else Except.ok ext

/-- `validate_size`: rejects sizes that are not strictly positive or
exceed 1 TB (1048576 MB).  `Except.error` models a raised `ValueError`. -/
def validate_size (size : ℚ) : Except PyError ℚ :=
  if size ≤ 0 then Except.error (PyError.valueError ( "Size must be positive" ))
  else if size > 1024 * 1024 then Except.error (PyError.valueError ( "Size too large" ))
  else Except.ok size

/-- Python `int(s)` on a size string: optional surrounding whitespace,
optional sign, then at least one digit; anything else raises (modelled as
`none`).  (Python also accepts digit-group underscores, which no Drive
size string contains.) -/
def parsePyInt (s : String) : Option Int :=
  let t := pyTrim s
  let signDigits : Int × List Char :=
    match t.data with
    | '-' :: rest => (-1, rest)
    | '+' :: rest => (1, rest)
    | l => (1, l)
  if !signDigits.2.isEmpty && signDigits.2.all Char.isDigit then
    some (signDigits.1 *
      (signDigits.2.foldl (fun acc c => acc * 10 + (Int.ofNat (c.toNat - ( '0' ).toNat))) 0))
  else none

/-- The per-run memo of resolved paths (`path_cache`), a mapping from
node id to path.  Modelled as an association list: insertion is `cons`
and `List.lookup` returns the most recent binding, matching dict
lookup/overwrite semantics. -/
abbrev PathCache : Type := List (String × String)

/-- Result of one `get_folder_path` call: the returned path, the cache
after the call, and the number of remote round trips (`.execute()`
calls) it performed. -/
structure ResolveResult where
  path : String
  cache : PathCache
  calls : Nat
deriving DecidableEq

/-- `get_folder_path(service, file_id, path_cache)`.  Control flow of the
source: cache hit first; then the invalid-id guard (`not file_id`; the
`isinstance` test is always true in this typed model); then the metadata
fetch — in the source this is `retry_api_call(service.files().get,
...).execute()`, i.e. the retry wrapper wraps only the request builder
(which cannot raise, see `retry_api_call_builder`) and the single
`.execute()` round trip happens outside it.  A raised `HttpError` or any
other exception yields `"/Unknown"` without caching.  On success: no
parents means `"/"`; otherwise the first parent is resolved recursively
and the path concatenated; the result is cached before returning.

`fuel` bounds the recursion depth purely to make the Lean recursion
structural (the source has no cycle guard and would hit Python's
recursion limit on a cyclic remote graph); exhausted fuel is modelled as
the unexpected-exception handler returning `"/Unknown"`. -/
def get_folder_path (s : DriveService) : Nat → String → PathCache → ResolveResult
  | fuel, file_id, cache =>
    match List.lookup file_id cache with
    | some p => ⟨p, cache, 0⟩
    | none =>
      if file_id == "" then ⟨ "/Unknown", cache, 0⟩
      else
        match s.getMeta file_id with
        | Except.error _ => ⟨ "/Unknown", cache, 1⟩
        | Except.ok meta =>
          match meta.parents with
          | [] => ⟨ "/", (file_id, "/") :: cache, 1⟩
          | p :: _ =>
            match fuel with
            | 0 => ⟨ "/Unknown", cache, 1⟩
            | fuel2 + 1 =>
              let r := get_folder_path s fuel2 p cache
              let name := meta.name.getD "Unknown"
              let path := if r.path == "/" then "/" ++ name else r.path ++ "/" ++ name
              ⟨path, (file_id, path) :: r.cache, 1 + r.calls⟩

/-- `get_file_folder_path(service, file_data, path_cache)`: the container
path of a record — `"/"` when the record has no parents, otherwise the
resolved path of its first parent (`parent_path if parent_path else "/"`;
a resolved path is never the empty string, so the fallback is inert and
kept for fidelity). -/
def get_file_folder_path (s : DriveService) (fuel : Nat) (file_data : FileRecord)
    (cache : PathCache) : ResolveResult :=
  match file_data.parents with
  | [] => ⟨ "/", cache, 0⟩
  | p :: _ =>
    let r := get_folder_path s fuel p cache
    ⟨if r.path == "" then "/" else r.path, r.cache, r.calls⟩

/-- Python attribute access `response.get` where `response` is the value
returned by `retry_api_call(service.files().list, ...)` in
`search_files`.  That value is the constructed `HttpRequest` itself — the
source never calls `.execute()` on it — and `HttpRequest` defines no
method `get`, so the access raises `AttributeError`.  (The executed
response dict would have a `get` method; the request object does not.) -/
def requestAttrGet (_r : DriveRequest) : Except PyError ListResponse :=
  Except.error (PyError.attributeError ( "HttpRequest object has no attribute get" ))

/-- The `while page_count < max_pages` pagination loop of `search_files`.
`pagesLeft` is `max_pages - page_count` (the loop counter made
structural).  Each iteration binds `response` to the result of
`retry_api_call(service.files().list, q=..., pageToken=...)` — the
request builder wrapped in retry, which returns the `HttpRequest` on the
first attempt — and then reads `response.get('files', [])`, which raises
`AttributeError` (see `requestAttrGet`).  The inner handler catches only
`HttpError` (returning `[]` for the whole search), so the
`AttributeError` propagates to the caller.  The code after that read
(accumulating pages, following `nextPageToken`) is therefore
unreachable; it is still embedded for fidelity. -/
def searchPageLoop (query : SearchQuery) :
    Option String → Nat → List FileRecord → Except PyError (List FileRecord)
  | _page_token, 0, results => Except.ok results
  | page_token, pagesLeft + 1, results =>
    match (retry_api_call
        (fun _ => (Except.ok (DriveRequest.filesList query page_token) :
          Except PyError DriveRequest)) 3 1).1 with
    | some (Except.ok response) =>
      match requestAttrGet response with
      | Except.error e =>
        match e with
        | PyError.httpError _ _ => Except.ok []
        | _ => Except.error e
      | Except.ok resp =>
        if resp.files.isEmpty then Except.ok results
        else
          match resp.nextPageToken with
          | none => Except.ok (results ++ resp.files)
          | some tok => searchPageLoop query (some tok) pagesLeft (results ++ resp.files)
    | some (Except.error e) =>
      match e with
      | PyError.httpError _ _ => Except.ok []
      | _ => Except.error e
    | none => Except.error (PyError.attributeError ( "NoneType object has no attribute get" ))

/-- The client-side post-filter of `search_files`, applied per record:
drop records missing a truthy `id` or `name`; with an extension filter,
keep only names that case-insensitively end with `.ext`; with a size
filter, drop records whose `size` is missing, empty, non-numeric, or
whose size in MB (`int(size)/1048576`) is below the threshold. -/
def post_filter_keep (extension : Option String) (min_size_mb : Option ℚ)
    (f : FileRecord) : Bool :=
  if !(optTruthy f.id) || !(optTruthy f.name) then false
  else if optTruthy extension &&
      !(pyEndsWith (pyLower (f.name.getD "" )) ( "." ++ pyLower (extension.getD "" ))) then
    false
  else
    match min_size_mb with
    | none => true
    | some m =>
      match f.size with
      | none => false
      | some size_str =>
        if size_str == "" then false
        else
          match parsePyInt size_str with
          | none => false
          | some size_bytes => !(decide ((size_bytes : ℚ) / (1024 * 1024) < m))

/-- The body of `search_files` up to its outer `try`: validate the
(truthy) inputs, build the query, run the pagination loop, and post-filter
the accumulated records.  An `Except.error` models an exception reaching
the outer handlers. -/
def search_files_try (extension : Option String) (min_size_mb : Option ℚ) :
    Except PyError (List FileRecord) :=
  match (if optTruthy extension
         then (validate_extension (extension.getD "" )).map some
         else Except.ok extension) with
  | Except.error e => Except.error e
  | Except.ok ext =>
    match (match min_size_mb with
           | some m => (validate_size m).map some
           | none => Except.ok none) with
    | Except.error e => Except.error e
    | Except.ok msz =>
      let query : SearchQuery := ⟨if optTruthy ext then ext else none⟩
      match searchPageLoop query none 100 [] with
      | Except.error e => Except.error e
      | Except.ok raw => Except.ok (raw.filter (post_filter_keep ext msz))

/-- `search_files(service, extension, min_size_mb)`: the outer
`try/except` turns any `ValueError` (invalid input) or other exception
into an empty result list; nothing propagates to the caller.  The
`service` handle is used only to build list requests, never to execute
them (see `searchPageLoop`), so the result does not depend on it. -/
def search_files (_service : DriveService) (extension : Option String)
    (min_size_mb : Option ℚ) : List FileRecord :=
  match search_files_try extension min_size_mb with
  | Except.ok files => files
  | Except.error _ => []

/-- Operator response at the `Confirm.ask` prompt: affirmative, decline,
or `KeyboardInterrupt`. -/
inductive ConfirmAnswer where
  | yes
  | no
  | interrupt
deriving DecidableEq

/-- Outcome of one `delete_files` run: the success and failure counters,
the failed-name list (`failed_files`, in input order), the mutation
requests constructed by the loop (`service.files().update/delete(...)`),
and the number of remote mutation round trips actually performed
(`.execute()` calls — the loop contains none). -/
structure DeleteOutcome where
  deleted : Nat
  failed : Nat
  failed_files : List String
  built : List DriveRequest
  executedCalls : Nat
deriving DecidableEq

/-- The request built for one record: `service.files().update(fileId=..,
body=..)` when trashing, `service.files().delete(fileId=..)` when
deleting permanently. -/
def mutationRequest (move_to_trash : Bool) (fid : String) : DriveRequest :=
  if move_to_trash then DriveRequest.filesUpdateTrashed fid
  else DriveRequest.filesDelete fid

/-- The per-record loop of `delete_files`.  For each record the source
calls `retry_api_call(service.files().update/delete, fileId=...)`: the
wrapped callable is the request builder, which returns the `HttpRequest`
on the first attempt without raising (see `retry_api_call_builder`), and
no `.execute()` follows — the remote is never contacted.  Control
therefore always reaches `deleted_count += 1`; the `except HttpError` /
`except Exception` branches (count the failure, record the name,
continue) are embedded but unreachable. -/
def deleteLoop (move_to_trash : Bool) : List FileRecord → DeleteOutcome
  | [] => ⟨0, 0, [], [], 0⟩
  | f :: rest =>
    match (retry_api_call
        (fun _ => (Except.ok (mutationRequest move_to_trash (f.id.getD "" )) :
          Except PyError DriveRequest)) 3 1).1 with
    | some (Except.ok req) =>
      let r := deleteLoop move_to_trash rest
      ⟨r.deleted + 1, r.failed, r.failed_files, req :: r.built, r.executedCalls⟩
    | some (Except.error _) =>
      let r := deleteLoop move_to_trash rest
      ⟨r.deleted, r.failed + 1, (f.name.getD "Unknown" ) :: r.failed_files, r.built,
        r.executedCalls⟩
    | none =>
      let r := deleteLoop move_to_trash rest
      ⟨r.deleted + 1, r.failed, r.failed_files, r.built, r.executedCalls⟩

/-- `delete_files(service, files, force, move_to_trash)` together with
the operator's answer at the confirmation prompt.  Empty input or no
valid records: return with nothing done.  Unless `force` is set, a
decline or `KeyboardInterrupt` at the prompt cancels the whole batch
before any record is touched.  Otherwise every valid record is processed
in input order by `deleteLoop`.  The `service` handle is used only to
build mutation requests, never to execute them. -/
def delete_files (_service : DriveService) (files : List FileRecord) (force : Bool)
    (move_to_trash : Bool) (confirm : ConfirmAnswer) : DeleteOutcome :=
  if files.isEmpty then ⟨0, 0, [], [], 0⟩
  else
    let valid_files := files.filter (fun f => optTruthy f.id && optTruthy f.name)
    if valid_files.isEmpty then ⟨0, 0, [], [], 0⟩
    else if force = false ∧ confirm ≠ ConfirmAnswer.yes then ⟨0, 0, [], [], 0⟩
    else deleteLoop move_to_trash valid_files

/-- A remote on which every executed request succeeds blandly; used as a
neutral service handle. -/
def okService : DriveService :=
  ⟨fun _ => Except.ok ⟨none, []⟩, fun _ _ => Except.ok ⟨[], none⟩,
   fun _ => Except.ok (), fun _ => Except.ok ()⟩

/-- A remote whose metadata fetch always raises a 503 `HttpError`. -/
def failService : DriveService :=
  ⟨fun _ => Except.error (PyError.httpError 503 ( "backend error" )),
   fun _ _ => Except.ok ⟨[], none⟩, fun _ => Except.ok (), fun _ => Except.ok ()⟩

/-- Metadata behaviour for the transitive-failure scenario: node `c` has
name `c` and first parent `p`; fetching `p` (or anything else) raises a
500 `HttpError`. -/
def c9Fetch : String → Except PyError NodeMeta := fun fid =>
  if fid == "c" then Except.ok ⟨some "c", ["p"]⟩
  else Except.error (PyError.httpError 500 ( "server error" ))

/-- Service wrapping `c9Fetch`. -/
def c9Service : DriveService :=
  ⟨c9Fetch, fun _ _ => Except.ok ⟨[], none⟩, fun _ => Except.ok (), fun _ => Except.ok ()⟩

/-- Metadata behaviour for the path-formula scenario: `r` is a root
folder (no parents), `a` is named `docs` with parent `r`, `b` is named
`song` with parent `a`. -/
def c10Fetch : String → Except PyError NodeMeta := fun fid =>
  if fid == "r" then Except.ok ⟨some "root", []⟩
  else if fid == "a" then Except.ok ⟨some "docs", ["r"]⟩
  else if fid == "b" then Except.ok ⟨some "song", ["a"]⟩
  else Except.error (PyError.httpError 404 ( "not found" ))

/-- Service wrapping `c10Fetch`. -/
def c10Service : DriveService :=
  ⟨c10Fetch, fun _ _ => Except.ok ⟨[], none⟩, fun _ => Except.ok (), fun _ => Except.ok ()⟩

/-- The 200 MB record `a.pdf` of the end-to-end scenario. -/
def recA : FileRecord := ⟨some "fa", some "a.pdf", some "209715200", []⟩

/-- The 500 MB record `b.pdf.txt` of the end-to-end scenario. -/
def recB : FileRecord := ⟨some "fb", some "b.pdf.txt", some "524288000", []⟩

/-- The 50 MB record `c.pdf` of the end-to-end scenario. -/
def recC : FileRecord := ⟨some "fc", some "c.pdf", some "52428800", []⟩

/-- A remote whose listing contains exactly the three scenario records. -/
def c2Service : DriveService :=
  ⟨fun _ => Except.ok ⟨none, []⟩,
   fun _ _ => Except.ok ⟨[recA, recB, recC], none⟩,
   fun _ => Except.ok (), fun _ => Except.ok ()⟩

/-- A well-formed, extension-matching record with no `size` field. -/
def recNoSize : FileRecord := ⟨some "fn", some "x.pdf", none, []⟩

/-- A remote whose listing contains exactly `recNoSize`. -/
def c4Service : DriveService :=
  ⟨fun _ => Except.ok ⟨none, []⟩,
   fun _ _ => Except.ok ⟨[recNoSize], none⟩,
   fun _ => Except.ok (), fun _ => Except.ok ()⟩

/-- A valid record with the given id and name and no size or parents. -/
def mkRec (id name : String) : FileRecord := ⟨some id, some name, none, []⟩

/-- Five valid records for the batch-failure scenario. -/
def c6Records : List FileRecord :=
  [mkRec "id1" "n1", mkRec "id2" "n2", mkRec "id3" "n3", mkRec "id4" "n4",
   mkRec "id5" "n5"]

/-- A remote on which the trash-flag update of item 3 (`id3`) raises a
terminal 404 `HttpError` and every other mutation succeeds. -/
def c6Service : DriveService :=
  ⟨fun _ => Except.ok ⟨none, []⟩, fun _ _ => Except.ok ⟨[], none⟩,
   fun fid => if fid == "id3" then Except.error (PyError.httpError 404 ( "not found" ))
              else Except.ok (),
   fun _ => Except.ok ()⟩

/-- An operation that fails with a retryable 503 on its first invocation
and returns 7 on the second. -/
def c3OpFlaky : Nat → Except PyError Nat := fun i =>
  if i == 0 then Except.error (PyError.httpError 503 ( "service unavailable" ))
  else Except.ok 7

/-- An operation that always fails with a terminal 404. -/
def c3OpFatal : Nat → Except PyError Nat := fun _ =>
  Except.error (PyError.httpError 404 ( "not found" ))

/-- Wrapping a request *builder* (a callable that never raises) in
`retry_api_call` returns the built request on the first attempt with no
sleeps — so at the `search_files` and `delete_files` call sites the retry
wrapper never retries and never contacts the remote. -/
theorem retry_api_call_builder {α : Type} (req : α) (mr : Nat) (b : ℚ) (h : 1 ≤ mr) :
    retry_api_call (fun _ => Except.ok req) mr b = (some (Except.ok req), []) := by
  obtain ⟨k, rfl⟩ : ∃ k, mr = k + 1 := ⟨mr - 1, by omega⟩
  rfl

/-- Closed-form witness for `retry_api_call_builder`. -/
theorem retry_api_call_builder_check :
    retry_api_call (fun _ => Except.ok 0) 3 1 = (some (Except.ok 0), []) :=
  retry_api_call_builder 0 3 1 (by omega)

/-- If the wrapped operation fails retryably on attempts `a, a+1, ...,
a+N-1` and succeeds on attempt `a+N` (all within the retry budget), the
loop returns the success and sleeps exactly `b * 2 ^ attempt` seconds at
each failed attempt. -/
theorem retryLoop_run {α : Type} (op : Nat → Except PyError α) (mr : Nat) (b : ℚ) (v : α) :
    ∀ N a : Nat, a + N < mr →
      (∀ i, i < N → ∃ e, op (a + i) = Except.error e ∧ retryable e = true) →
      op (a + N) = Except.ok v →
      retryLoop op mr b a (mr - a) =
        (some (Except.ok v), (List.range N).map (fun i => b * 2 ^ (a + i))) := by
  intro N
  induction N with
  | zero =>
    intro a ha hfail hok
    rw [Nat.add_zero] at hok
    obtain ⟨k, hk⟩ : ∃ k, mr - a = k + 1 := ⟨mr - a - 1, by omega⟩
    rw [hk]
    simp [retryLoop, hok]
  | succ N ih =>
    intro a ha hfail hok
    obtain ⟨e, he, hre⟩ := hfail 0 (Nat.succ_pos N)
    rw [Nat.add_zero] at he
    obtain ⟨k, hk⟩ : ∃ k, mr - a = k + 1 := ⟨mr - a - 1, by omega⟩
    have hk2 : k = mr - (a + 1) := by omega
    have hcond : (retryable e && decide (a < mr - 1)) = true := by
      rw [hre, Bool.true_and, decide_eq_true_eq]
      omega
    have hfail2 : ∀ i, i < N → ∃ e2, op (a + 1 + i) = Except.error e2 ∧ retryable e2 = true := by
      intro i hi
      obtain ⟨e2, h1, h2⟩ := hfail (i + 1) (by omega)
      refine ⟨e2, ?_, h2⟩
      rw [show a + 1 + i = a + (i + 1) by omega]
      exact h1
    have hok2 : op (a + 1 + N) = Except.ok v := by
      rw [show a + 1 + N = a + (N + 1) by omega]
      exact hok
    rw [hk]
    simp only [retryLoop, he, hcond, if_true]
    rw [hk2, ih (a + 1) (by omega) hfail2 hok2]
    rw [List.range_succ_eq_map]
    simp only [List.map_cons, List.map_map, Prod.mk.injEq, Nat.add_zero]
    refine ⟨trivial, ?_⟩
    congr 1
    apply List.map_congr_left
    intro i _
    simp only [Function.comp_apply]
    rw [show a + 1 + i = a + (i + 1) by omega]

/-- C3: for every wrapped operation and every `N ≤ maxRetries - 1`, if
the operation fails retryably on its first `N` invocations and succeeds
on invocation `N+1`, `retry_api_call` returns the successful result and
performs exactly `N` backoff sleeps of duration `backoffBase * 2 ^
attempt` (attempt starting at 0), so each sleep is double the previous;
and if the operation fails with a terminal (non-retryable) error, it
performs zero sleeps and the failure surfaces from the first attempt. -/
theorem c3_retry_backoff {α : Type} (op : Nat → Except PyError α) (mr : Nat) (b : ℚ)
    (N : Nat) (v : α) (e : PyError) :
    (N + 1 ≤ mr →
      (∀ i, i < N → ∃ e2, op i = Except.error e2 ∧ retryable e2 = true) →
      op N = Except.ok v →
      retry_api_call op mr b = (some (Except.ok v), (List.range N).map (fun i => b * 2 ^ i)))
  ∧ (1 ≤ mr → retryable e = false → op 0 = Except.error e →
      retry_api_call op mr b = (some (Except.error e), [])) := by
  constructor
  · intro h1 hfail hok
    have h := retryLoop_run op mr b v N 0 (by omega)
      (fun i hi => by simpa using hfail i hi) (by simpa using hok)
    rw [Nat.sub_zero] at h
    unfold retry_api_call
    rw [h]
    simp
  · intro h1 hnr h0
    obtain ⟨k, hk⟩ : ∃ k, mr = k + 1 := ⟨mr - 1, by omega⟩
    unfold retry_api_call
    rw [hk]
    simp [retryLoop, h0, hnr]

/-- C3 witness: a 503 that clears on the second attempt yields the
result with one 1-second sleep; a terminal 404 surfaces at once with no
sleep. -/
theorem c3_retry_backoff_witness :
    retry_api_call c3OpFlaky 3 1 = (some (Except.ok 7), [1])
  ∧ retry_api_call c3OpFatal 3 1 =
      (some (Except.error (PyError.httpError 404 ( "not found" ))), []) := by
  constructor
  · have h := (c3_retry_backoff c3OpFlaky 3 1 1 7 (PyError.exc ( "x" ))).1 (by omega)
      (fun i hi => ⟨PyError.httpError 503 ( "service unavailable" ), by
        have hi0 : i = 0 := by omega
        subst hi0
        exact ⟨rfl, by decide⟩⟩)
      (by rfl)
    rw [h]
    simp [List.range_succ]
  · exact (c3_retry_backoff c3OpFatal 3 1 0 0 (PyError.httpError 404 ( "not found" ))).2
      (by omega) (by decide) (by rfl)

/-- After any `get_folder_path` call, either the requested id is bound in
the resulting cache to exactly the returned path (every successful
resolution caches its result, including sentinel-prefixed paths), or the
call changed nothing: the cache is untouched, the id was not cached, and
the returned path is the sentinel `"/Unknown"`. -/
theorem get_folder_path_cached_or_untouched (s : DriveService) (fuel : Nat) (id : String)
    (cache : PathCache) :
    List.lookup id (get_folder_path s fuel id cache).cache =
        some (get_folder_path s fuel id cache).path
  ∨ ((get_folder_path s fuel id cache).cache = cache ∧ List.lookup id cache = none
      ∧ (get_folder_path s fuel id cache).path = "/Unknown" ) := by
  rw [get_folder_path]
  cases hl : List.lookup id cache with
  | some p => simp [hl]
  | none =>
    simp only [hl]
    cases hid : id == "" with
    | true => simp [hid, hl]
    | false =>
      simp only [hid, Bool.false_eq_true, if_false]
      cases hm : s.getMeta id with
      | error e => simp [hl]
      | ok meta =>
        cases hp : meta.parents with
        | nil => simp [hp, List.lookup]
        | cons p ps =>
          cases fuel with
          | zero => simp [hp, hl]
          | succ fuel2 => simp [hp, List.lookup]

/-- C8 counterexample: with a remote whose metadata fetch for node `x`
always raises, the first `get_folder_path` call returns the sentinel
without caching anything, so the second call with the resulting (still
empty) cache performs one remote call again — not zero as the claim
requires for every node id and cache. -/
theorem c8_counterexample :
    (get_folder_path failService 1 ( "x" ) []).path = "/Unknown"
  ∧ (get_folder_path failService 1 ( "x" ) []).cache = ([] : PathCache)
  ∧ (get_folder_path failService 1 ( "x" )
      ((get_folder_path failService 1 ( "x" ) []).cache)).calls = 1
  ∧ ¬((get_folder_path failService 1 ( "x" )
      ((get_folder_path failService 1 ( "x" ) []).cache)).calls = 0) :=
  ⟨rfl, rfl, rfl, by decide⟩

/-- C8 (amended): two successive `get_folder_path` calls with the same
node id and the same cache return the identical path string, and the
second call leaves the cache exactly as the first left it; the second
call performs zero remote calls whenever the first call stored the id in
the cache — which happens in every case except when the first call
itself failed with the sentinel `"/Unknown"` and cached nothing, in
which case the second call repeats the first call's remote calls and
returns the same sentinel. -/
theorem c8_resolve_idempotent (s : DriveService) (fuel : Nat) (id : String)
    (cache : PathCache) :
    (get_folder_path s fuel id (get_folder_path s fuel id cache).cache).path
        = (get_folder_path s fuel id cache).path
  ∧ (get_folder_path s fuel id (get_folder_path s fuel id cache).cache).cache
        = (get_folder_path s fuel id cache).cache
  ∧ ((get_folder_path s fuel id (get_folder_path s fuel id cache).cache).calls = 0
     ∨ ((get_folder_path s fuel id cache).path = "/Unknown"
        ∧ (get_folder_path s fuel id (get_folder_path s fuel id cache).cache).calls
            = (get_folder_path s fuel id cache).calls)) := by
  rcases get_folder_path_cached_or_untouched s fuel id cache with h | ⟨hc, _hl, hp⟩
  · have h2 : get_folder_path s fuel id (get_folder_path s fuel id cache).cache
        = ⟨(get_folder_path s fuel id cache).path,
           (get_folder_path s fuel id cache).cache, 0⟩ := by
      rw [get_folder_path]
      simp [h]
    rw [h2]
    exact ⟨rfl, rfl, Or.inl rfl⟩
  · rw [hc]
    exact ⟨rfl, hc, Or.inr ⟨hp, rfl⟩⟩

/-- C9 counterexample: resolving node `c` whose parent `p` fails with a
remote error returns `"/Unknown/c"` — not the bare sentinel — and stores
that sentinel-derived path in the cache, so a resolution during which a
remote error occurred does change the cache. -/
theorem c9_counterexample :
    c9Fetch ( "p" ) = Except.error (PyError.httpError 500 ( "server error" ))
  ∧ (get_folder_path c9Service 1 ( "c" ) []).path = "/Unknown/c"
  ∧ ¬((get_folder_path c9Service 1 ( "c" ) []).path = "/Unknown" )
  ∧ ¬((get_folder_path c9Service 1 ( "c" ) []).cache = ([] : PathCache)) :=
  ⟨rfl, rfl, by decide, by decide⟩

/-- C9 (amended): resolution never raises past its boundary.  When the
node's own lookup fails — an invalid id, or a remote error on its own
metadata fetch — `get_folder_path` returns the sentinel `"/Unknown"` and
leaves the cache unchanged, storing nothing.  But when the remote error
occurs at an ancestor, the node's path is built with the sentinel as
prefix (`parentPath + "/" + name`) and that sentinel-derived path *is*
stored in the cache. -/
theorem c9_sentinel_behaviour (s : DriveService) (fuel : Nat) (id : String)
    (cache : PathCache) (hmiss : List.lookup id cache = none) :
    (id = "" → get_folder_path s fuel id cache = ⟨ "/Unknown", cache, 0⟩)
  ∧ (∀ err, id ≠ "" → s.getMeta id = Except.error err →
      get_folder_path s fuel id cache = ⟨ "/Unknown", cache, 1⟩)
  ∧ (∀ meta p ps fuel2, id ≠ "" → s.getMeta id = Except.ok meta →
      meta.parents = p :: ps → fuel = fuel2 + 1 →
      (get_folder_path s fuel2 p cache).path = "/Unknown" →
      get_folder_path s fuel id cache =
        ⟨ "/Unknown/" ++ meta.name.getD "Unknown",
          (id, "/Unknown/" ++ meta.name.getD "Unknown" ) ::
            (get_folder_path s fuel2 p cache).cache,
          1 + (get_folder_path s fuel2 p cache).calls⟩) := by
  refine ⟨?_, ?_, ?_⟩
  · intro hid
    subst hid
    rw [get_folder_path]
    simp [hmiss]
  · intro err hid herr
    have hid2 : (id == "" ) = false := beq_eq_false_iff_ne.mpr hid
    rw [get_folder_path]
    simp [hmiss, hid2, herr]
  · intro meta p ps fuel2 hid hmeta hp hfuel hparent
    subst hfuel
    have hid2 : (id == "" ) = false := beq_eq_false_iff_ne.mpr hid
    rw [get_folder_path]
    simp [hmiss, hid2, hmeta, hp, hparent]

/-- C9 witness: concrete instances of all three arms of
`c9_sentinel_behaviour`. -/
theorem c9_sentinel_behaviour_witness :
    get_folder_path c9Service 1 ( "" ) [] = ⟨ "/Unknown", [], 0⟩
  ∧ get_folder_path c9Service 0 ( "p" ) [] = ⟨ "/Unknown", [], 1⟩
  ∧ get_folder_path c9Service 1 ( "c" ) [] =
      ⟨ "/Unknown/c", [( "c", "/Unknown/c" )], 2⟩ := by
  refine ⟨?_, ?_, ?_⟩
  · exact (c9_sentinel_behaviour c9Service 1 ( "" ) [] rfl).1 rfl
  · exact (c9_sentinel_behaviour c9Service 0 ( "p" ) [] rfl).2.1
      (PyError.httpError 500 ( "server error" )) (by decide) rfl
  · have h := (c9_sentinel_behaviour c9Service 1 ( "c" ) [] rfl).2.2
      ⟨some ( "c" ), [ "p" ]⟩ ( "p" ) [] 0 (by decide) rfl rfl rfl rfl
    rw [h]
    decide

/-- C10: for a node resolved fresh (not cached, valid id) whose metadata
fetch succeeds: with no parents the path is `"/"`; with a first parent
whose recursively resolved path is `"/"` the path is `"/" + name`; and
otherwise the path is `parentPath + "/" + name`, where `parentPath` is
the recursively resolved path of the first parent. -/
theorem c10_path_rule (s : DriveService) (fuel : Nat) (id : String) (cache : PathCache)
    (meta : NodeMeta) (nm : String) (hmiss : List.lookup id cache = none) (hid : id ≠ "" )
    (hmeta : s.getMeta id = Except.ok meta) (hname : meta.name = some nm) :
    (meta.parents = [] → (get_folder_path s fuel id cache).path = "/" )
  ∧ (∀ p ps fuel2, meta.parents = p :: ps → fuel = fuel2 + 1 →
      (((get_folder_path s fuel2 p cache).path = "/" →
          (get_folder_path s fuel id cache).path = "/" ++ nm)
       ∧ ((get_folder_path s fuel2 p cache).path ≠ "/" →
          (get_folder_path s fuel id cache).path
            = (get_folder_path s fuel2 p cache).path ++ "/" ++ nm))) := by
  have hid2 : (id == "" ) = false := beq_eq_false_iff_ne.mpr hid
  constructor
  · intro hp
    rw [get_folder_path]
    simp [hmiss, hid2, hmeta, hp]
  · intro p ps fuel2 hp hfuel
    subst hfuel
    constructor
    · intro hparent
      rw [get_folder_path]
      simp [hmiss, hid2, hmeta, hp, hparent, hname]
    · intro hparent
      rw [get_folder_path]
      simp [hmiss, hid2, hmeta, hp, hparent, hname]

/-- C10 witness: a parentless node resolves to `"/"`; a child of the
root resolves to `"/" + name`; a grandchild concatenates the parent path
with `"/" + name`. -/
theorem c10_path_rule_witness :
    (get_folder_path c10Service 0 ( "r" ) []).path = "/"
  ∧ (get_folder_path c10Service 1 ( "a" ) []).path = "/docs"
  ∧ (get_folder_path c10Service 2 ( "b" ) []).path = "/docs/song" := by
  refine ⟨?_, ?_, ?_⟩
  · exact (c10_path_rule c10Service 0 ( "r" ) [] ⟨some ( "root" ), []⟩ ( "root" )
      rfl (by decide) rfl rfl).1 rfl
  · have h := ((c10_path_rule c10Service 1 ( "a" ) [] ⟨some ( "docs" ), [ "r" ]⟩ ( "docs" )
      rfl (by decide) rfl rfl).2 ( "r" ) [] 0 rfl rfl).1 (by decide)
    rw [h]
    decide
  · have h := ((c10_path_rule c10Service 2 ( "b" ) [] ⟨some ( "song" ), [ "a" ]⟩ ( "song" )
      rfl (by decide) rfl rfl).2 ( "a" ) [] 1 rfl rfl).2 (by decide)
    rw [h]
    decide

/-- The first iteration of the pagination loop always raises: the value
bound to `response` is the unexecuted `HttpRequest`, and reading
`response.get('files', [])` raises `AttributeError`, which the inner
`except HttpError` does not catch. -/
theorem searchPageLoop_first_iteration (query : SearchQuery) (tok : Option String)
    (results : List FileRecord) :
    searchPageLoop query tok 100 results =
      Except.error (PyError.attributeError ( "HttpRequest object has no attribute get" )) :=
  rfl

/-- The body of `search_files` always ends in an exception reaching the
outer handlers: either a `ValueError` from validation or the
`AttributeError` from the unexecuted list request. -/
theorem search_files_try_raises (extension : Option String) (min_size_mb : Option ℚ) :
    ∃ e, search_files_try extension min_size_mb = Except.error e := by
  unfold search_files_try
  cases hv : (if optTruthy extension
              then (validate_extension (extension.getD "" )).map some
              else Except.ok extension) with
  | error e => exact ⟨e, by simp [hv]⟩
  | ok ext =>
    cases hm : (match min_size_mb with
                | some m => (validate_size m).map some
                | none => Except.ok none) with
    | error e => exact ⟨e, by simp [hv, hm]⟩
    | ok msz =>
      refine ⟨PyError.attributeError ( "HttpRequest object has no attribute get" ), ?_⟩
      simp [hv, hm, searchPageLoop_first_iteration]

/-- C5: `search_files` never raises past its own boundary (it is a total
function into a result list): for every input — including invalid
extensions and sizes, which the validators reject with a `ValueError`
caught by the outer handler — it returns the empty sequence, and the
result is independent of the remote session handle, so no input ever
causes a remote call to influence (or be needed for) the result.  This
holds degenerately: the listing request is built but never executed, so
every exception path lands in the outer handlers and every search
returns `[]`. -/
theorem c5_search_never_raises (s : DriveService) (extension : Option String)
    (min_size_mb : Option ℚ) :
    search_files s extension min_size_mb = []
  ∧ ∀ s2 : DriveService, search_files s2 extension min_size_mb
      = search_files s extension min_size_mb := by
  refine ⟨?_, fun s2 => rfl⟩
  obtain ⟨e, he⟩ := search_files_try_raises extension min_size_mb
  unfold search_files
  rw [he]

/-- C2 (code evaluation at the failing input): on the remote whose
listing holds exactly `a.pdf` (200 MB), `b.pdf.txt` (500 MB) and `c.pdf`
(50 MB), searching for extension `pdf` with a 100 MB minimum returns the
empty list — not `[a.pdf]` — because the listing request is never
executed; the client-side post-filter alone (second conjunct) would have
selected exactly `a.pdf` from those records. -/
theorem c2_end_to_end_scenario :
    search_files c2Service (some ( "pdf" )) (some 100) = []
  ∧ [recA, recB, recC].filter (post_filter_keep (some ( "pdf" )) (some 100)) = [recA] := by
  constructor
  · obtain ⟨e, he⟩ := search_files_try_raises (some ( "pdf" )) (some 100)
    unfold search_files
    rw [he]
  · have h1 : post_filter_keep (some ( "pdf" )) (some 100) recA = true := by
      have hn : parsePyInt ( "209715200" ) = some 209715200 := by decide
      have he : pyEndsWith (pyLower ( "a.pdf" )) ( "." ++ pyLower ( "pdf" )) = true := by
        decide
      simp [post_filter_keep, recA, optTruthy, hn, he]
      norm_num
    have h2 : post_filter_keep (some ( "pdf" )) (some 100) recB = false := by
      have he : pyEndsWith (pyLower ( "b.pdf.txt" )) ( "." ++ pyLower ( "pdf" )) = false := by
        decide
      simp [post_filter_keep, recB, optTruthy, he]
    have h3 : post_filter_keep (some ( "pdf" )) (some 100) recC = false := by
      have hn : parsePyInt ( "52428800" ) = some 52428800 := by decide
      have he : pyEndsWith (pyLower ( "c.pdf" )) ( "." ++ pyLower ( "pdf" )) = true := by
        decide
      simp [post_filter_keep, recC, optTruthy, hn, he]
      norm_num
    simp [List.filter, h1, h2, h3]

/-- C4 (code evaluation at the failing input): a size-less, otherwise
well-formed and matching record is *not* returned by a search with no
size filter — the search result is empty — even though the post-filter
itself (second and third conjuncts) implements exactly the claimed
inclusion/exclusion rule. -/
theorem c4_sizeless_record :
    search_files c4Service (some ( "pdf" )) none = []
  ∧ post_filter_keep (some ( "pdf" )) none recNoSize = true
  ∧ post_filter_keep (some ( "pdf" )) (some 1) recNoSize = false := by
  refine ⟨?_, by decide, by decide⟩
  obtain ⟨e, he⟩ := search_files_try_raises (some ( "pdf" )) none
  unfold search_files
  rw [he]

/-- The mutation loop counts every record as deleted: the builder wrapped
in retry always yields the request on the first attempt, no `.execute()`
ever runs, and so no exception can reach the failure handlers — whatever
the remote would have answered. -/
theorem deleteLoop_all_counted (move_to_trash : Bool) (l : List FileRecord) :
    deleteLoop move_to_trash l =
      ⟨l.length, 0, [], l.map (fun f => mutationRequest move_to_trash (f.id.getD "" )), 0⟩ := by
  induction l with
  | nil => rfl
  | cons f rest ih =>
    have hr : (retry_api_call
        (fun _ => (Except.ok (mutationRequest move_to_trash (f.id.getD "" )) :
          Except PyError DriveRequest)) 3 1).1
        = some (Except.ok (mutationRequest move_to_trash (f.id.getD "" ))) := rfl
    simp [deleteLoop, hr, ih]

/-- C1 (code evaluation): with confirmation granted by `force`, every
valid record is counted as succeeded, yet the number of remote mutation
round trips is zero for every input and every remote — the update/delete
requests are built but `.execute()` is never called, so no mutation
reaches the remote and "succeeded" does not mean "performed". -/
theorem c1_succeeded_without_remote_mutation (s : DriveService) (files : List FileRecord)
    (move_to_trash : Bool) (confirm : ConfirmAnswer) :
    (delete_files s files true move_to_trash confirm).executedCalls = 0
  ∧ (delete_files s files true move_to_trash confirm).deleted
      = (files.filter (fun f => optTruthy f.id && optTruthy f.name)).length := by
  unfold delete_files
  cases hf : files.isEmpty with
  | true =>
    have hnil : files = [] := List.isEmpty_iff.mp hf
    subst hnil
    simp
  | false =>
    simp only [hf, Bool.false_eq_true, if_false]
    cases hv : (files.filter (fun f => optTruthy f.id && optTruthy f.name)).isEmpty with
    | true =>
      have hnil := List.isEmpty_iff.mp hv
      simp [hv, hnil]
    | false =>
      simp [hv, deleteLoop_all_counted]

/-- C6 (code evaluation at the failing input): five valid records on a
remote where the mutation of item 3 (`id3`) would fail terminally; the
batch reports succeeded=5, failed=0 and an empty failed-name list — not
4/1/[n3] — because the five built mutation requests are never executed
(second conjunct restates the remote behaviour for `id3`). -/
theorem c6_per_item_failure_not_recorded :
    delete_files c6Service c6Records false true ConfirmAnswer.yes
      = ⟨5, 0, [],
         [DriveRequest.filesUpdateTrashed ( "id1" ), DriveRequest.filesUpdateTrashed ( "id2" ),
          DriveRequest.filesUpdateTrashed ( "id3" ), DriveRequest.filesUpdateTrashed ( "id4" ),
          DriveRequest.filesUpdateTrashed ( "id5" )], 0⟩
  ∧ c6Service.updateTrashed ( "id3" )
      = Except.error (PyError.httpError 404 ( "not found" )) :=
  ⟨by decide, rfl⟩

/-- C7: with `skipConfirmation` unset (`force = false`), a decline or an
interrupt at the confirmation prompt cancels the whole batch: no
mutation request is even built, no remote call is issued, and the
outcome is all-zero for every record list and mode. -/
theorem c7_decline_cancels_batch (s : DriveService) (files : List FileRecord)
    (move_to_trash : Bool) (confirm : ConfirmAnswer) (h : confirm ≠ ConfirmAnswer.yes) :
    delete_files s files false move_to_trash confirm = ⟨0, 0, [], [], 0⟩ := by
  unfold delete_files
  cases hf : files.isEmpty with
  | true => simp
  | false =>
    simp only [hf, Bool.false_eq_true, if_false]
    cases hv : (files.filter (fun f => optTruthy f.id && optTruthy f.name)).isEmpty with
    | true => simp [hv]
    | false => simp [hv, h]

/-- C7 witness: a simulated decline over one valid record yields the
all-zero outcome. -/
theorem c7_decline_cancels_batch_witness :
    delete_files okService [mkRec ( "id1" ) ( "n1" )] false true ConfirmAnswer.no
      = ⟨0, 0, [], [], 0⟩ :=
  c7_decline_cancels_batch okService [mkRec ( "id1" ) ( "n1" )] true ConfirmAnswer.no
    (by decide)
